import Mathlib

/-!
Verification development for the solar prayer-time calculation engine of the
Azan app repository.

The development shallowly embeds the two TypeScript implementations over the
real numbers:

* `src/lib/solar-calc.ts` — the "advanced" calculator
  (`calculatePrayerTimesAdvanced` with an iterative fixed-point solver);
* the legacy single-pass calculator (`calculatePrayerTimes`) found in the
  second unnamed source file.

JavaScript `number` arithmetic is modelled by `ℝ` (no NaN/Infinity; the code
clamps the only arccos argument so no NaN arises on the inputs studied here).
JavaScript's remainder operator `%` (truncated toward zero) is modelled by
`jsMod` for reals and `Int.tmod` for integers.  `Math.round x` is `round x`
(both are `⌊x + 1/2⌋`), `Math.floor` is `Int.floor`.

`Date` values: both implementations only use the date to derive the 1-based
day-of-year index (via `Date.UTC` differences resp. `getTime` differences);
the embeddings therefore take that integer day index directly as the date
parameter.
-/

namespace Azan

noncomputable section

open Real

/-- `const d2r = (d) => (d * Math.PI) / 180` -/
def d2r (d : ℝ) : ℝ := d * π / 180

/-- `const r2d = (r) => (r * 180) / Math.PI` -/
def r2d (r : ℝ) : ℝ := r * 180 / π

/-- `const clamp = (v, a=-1, b=1) => Math.max(a, Math.min(b, v))` -/
def clamp (v : ℝ) : ℝ := max (-1) (min 1 v)

/-- JavaScript truncation toward zero, as used by the `%` operator on reals. -/
def jsTrunc (t : ℝ) : ℤ := if 0 ≤ t then ⌊t⌋ else ⌈t⌉

/-- JavaScript remainder `x % y` on numbers: `x - y * trunc (x / y)`. -/
def jsMod (x y : ℝ) : ℝ := x - y * (jsTrunc (x / y) : ℝ)

/-- Line 59 of the advanced formatter: `(hoursFloat % 24 + 24) % 24`. -/
def wrap24 (x : ℝ) : ℝ := jsMod (jsMod x 24 + 24) 24

/-- `m.toString().padStart(2, "0")` for the minute field (values `0 ≤ m ≤ 59`). -/
def padMin (m : ℕ) : String := if m < 10 then "0" ++ Nat.repr m else Nat.repr m

/-- Rendering of `` `${displayH}:${mm} ${period}` `` for the advanced formatter,
with the display hour and minute as (nonnegative) integers. -/
def renderClock (dh m : ℤ) (pm : Bool) : String :=
  Nat.repr dh.toNat ++ ":" ++ padMin m.toNat ++ " " ++ (if pm then "PM" else "AM")

/-- `let h = Math.floor(hoursFloat)` after wrapping (solar-calc.ts line 60). -/
def fmtH (x : ℝ) : ℤ := ⌊wrap24 x⌋

/-- `let m = Math.round((hoursFloat - h) * 60)` (line 61). -/
def fmtMraw (x : ℝ) : ℤ := round ((wrap24 x - (fmtH x : ℝ)) * 60)

/-- The hour after the `m === 60` carry: `h = (h + 1) % 24` (lines 62-65). -/
def fmtHc (x : ℝ) : ℤ := if fmtMraw x = 60 then (fmtH x + 1) % 24 else fmtH x

/-- The minute after the `m === 60` carry: `m = 0` (lines 62-65). -/
def fmtMc (x : ℝ) : ℤ := if fmtMraw x = 60 then 0 else fmtMraw x

/-- `const period = h >= 12 ? "PM" : "AM"` (line 66). -/
def fmtIsPM (x : ℝ) : Bool := 12 ≤ fmtHc x

/-- `const displayH = h % 12 || 12` (line 67): `12` exactly when `h % 12 = 0`. -/
def fmtDisplayH (x : ℝ) : ℤ := if fmtHc x % 12 = 0 then 12 else fmtHc x % 12

/-- `formatHM` of solar-calc.ts lines 57-69. -/
def formatHM (x : ℝ) : String := renderClock (fmtDisplayH x) (fmtMc x) (fmtIsPM x)

/-- `function hoursToMins(hours){ return Math.round(hours*60) }` (line 71). -/
def hoursToMins (hours : ℝ) : ℤ := round (hours * 60)

/-- `function minsToHours(mins){ return mins/60 }` (line 72). -/
def minsToHours (mins : ℝ) : ℝ := mins / 60

/-- The raw cosine of the hour angle before clamping (solar-calc.ts line 78):
`(Math.sin(d2r(alphaDeg)) - Math.sin(phi)*Math.sin(d)) / (Math.cos(phi)*Math.cos(d))`. -/
def rawCosH (latDeg declDeg alphaDeg : ℝ) : ℝ :=
  (Real.sin (d2r alphaDeg) - Real.sin (d2r latDeg) * Real.sin (d2r declDeg)) /
    (Real.cos (d2r latDeg) * Real.cos (d2r declDeg))

/-- `hourAngleDeg` of solar-calc.ts lines 75-80: the clamped arccos, in degrees. -/
def hourAngleDeg (latDeg declDeg alphaDeg : ℝ) : ℝ :=
  r2d (Real.arccos (clamp (rawCosH latDeg declDeg alphaDeg)))

/-- `asrAltitudeDeg` of solar-calc.ts lines 83-89:
`-atan(1 / (shadowFactor + tan(|phi - d|)))`, converted to degrees. -/
def asrAltitudeDeg (latDeg declDeg shadowFactor : ℝ) : ℝ :=
  -r2d (Real.arctan (1 / (shadowFactor + Real.tan |d2r latDeg - d2r declDeg|)))

/-- `declinationAndEoTFromNf` of solar-calc.ts lines 48-55 (first component the
declination in degrees, second the equation of time in minutes). -/
def declinationAndEoTFromNf (Nf : ℝ) : ℝ × ℝ :=
  let B := (360 / 365) * (Nf - 81)
  let Brad := d2r B
  (23.45 * Real.sin (d2r ((360 / 365) * (Nf - 81))),
    9.87 * Real.sin (2 * Brad) - 7.53 * Real.cos Brad - 1.5 * Real.sin Brad)

/-- `enum CalcMethod` of solar-calc.ts. -/
inductive CalcMethod where
  | MWL | Karachi | Egypt | UmmAlQura | Custom
deriving DecidableEq, Repr

/-- `METHOD_ANGLES` (solar-calc.ts lines 26-32): `(fajr, isha)` angle pairs. -/
def METHOD_ANGLES : CalcMethod → ℝ × ℝ
  | .MWL => (-18, -17)
  | .Karachi => (-18, -18)
  | .Egypt => (-19.5, -17.5)
  | .UmmAlQura => (-18.5, -90)
  | .Custom => (-18, -18)

/-- The inline day-fraction computation of `getSolarAtLocalHour`
(solar-calc.ts lines 114-127), followed by `declinationAndEoTFromNf`
(line 128).  `dayIndex` is the 1-based day of year derived from the `Date`. -/
def getSolarAtLocalHour (timezone : ℝ) (dayIndex : ℤ) (localHour : ℝ) : ℝ × ℝ :=
  let utcHour := localHour - timezone
  let Nf : ℝ :=
    if utcHour < 0 then (dayIndex : ℝ) - 1 + (utcHour + 24) / 24
    else if 24 ≤ utcHour then (dayIndex : ℝ) + 1 + (utcHour - 24) / 24
    else (dayIndex : ℝ) + utcHour / 24
  declinationAndEoTFromNf Nf

/-- `12 + timezone - lng/15 - EoT/60`, the solar-noon formula used at
solar-calc.ts lines 137, 150, 168 and 173. -/
def noonOf (lng timezone eot : ℝ) : ℝ := 12 + timezone - lng / 15 - eot / 60

/-- The mutable solver state of `calculatePrayerTimesAdvanced`: the variables
`delta`, `EoT`, `solarNoon` (solar-calc.ts lines 133-137). -/
structure SolarSt where
  delta : ℝ
  eot : ℝ
  noon : ℝ

/-- One pass of the `for (let i=0;i<3;i++)` body of `solvePrayer`
(solar-calc.ts lines 146-153): re-evaluate the solar model at the current
estimate, recompute `solarNoon` and `H`, recompute `t`. -/
def solveStep (lat lng timezone : ℝ) (dayIndex : ℤ) (alphaDeg : ℝ)
    (beforeNoon : Bool) (p : SolarSt × ℝ) : SolarSt × ℝ :=
  let s := getSolarAtLocalHour timezone dayIndex p.2
  let noon := noonOf lng timezone s.2
  let H := hourAngleDeg lat s.1 alphaDeg
  let t := if beforeNoon then noon - H / 15 else noon + H / 15
  (⟨s.1, s.2, noon⟩, t)

/-- `solvePrayer` of solar-calc.ts lines 140-155: initial estimate from the
current state, then the loop body three times.  Returns the final state
(the mutated `delta`/`EoT`/`solarNoon`) together with `t`. -/
def solvePrayer (lat lng timezone : ℝ) (dayIndex : ℤ) (alphaDeg : ℝ)
    (beforeNoon : Bool) (st : SolarSt) : SolarSt × ℝ :=
  let H0 := hourAngleDeg lat st.delta alphaDeg
  let t0 := if beforeNoon then st.noon - H0 / 15 else st.noon + H0 / 15
  solveStep lat lng timezone dayIndex alphaDeg beforeNoon
    (solveStep lat lng timezone dayIndex alphaDeg beforeNoon
      (solveStep lat lng timezone dayIndex alphaDeg beforeNoon (st, t0)))

/-- The initial state of the main function (solar-calc.ts lines 132-137):
declination/EoT at local noon and the initial `solarNoon`. -/
def initSt (lng timezone : ℝ) (dayIndex : ℤ) : SolarSt :=
  let s := getSolarAtLocalHour timezone dayIndex 12
  ⟨s.1, s.2, noonOf lng timezone s.2⟩

/-- The Dhuhr block of solar-calc.ts lines 164-175: reset `delta`/`EoT` from
the solar model at local hour 12, recompute `solarNoon`, then refine
`solarNoon` twice (the `for (let i=0;i<2;i++)` loop updates only `EoT` and
`solarNoon`). -/
def dhuhrSt (lng timezone : ℝ) (dayIndex : ℤ) : SolarSt :=
  let s := getSolarAtLocalHour timezone dayIndex 12
  let noon0 := noonOf lng timezone s.2
  let e1 := (getSolarAtLocalHour timezone dayIndex noon0).2
  let noon1 := noonOf lng timezone e1
  let e2 := (getSolarAtLocalHour timezone dayIndex noon1).2
  let noon2 := noonOf lng timezone e2
  ⟨s.1, e2, noon2⟩

/-- The six raw local-hour values (fajr, sunrise, dhuhr, asr, maghrib, isha)
produced by `calculatePrayerTimesAdvanced` before formatting. -/
structure Locals where
  fajr : ℝ
  sunrise : ℝ
  dhuhr : ℝ
  asr : ℝ
  maghrib : ℝ
  isha : ℝ

/-- The angle selection of solar-calc.ts lines 106-108: a custom angle is only
honoured when the method is `Custom` and the angle was passed. -/
def resolveAngle (method : CalcMethod) (custom : Option ℝ) (preset : ℝ) : ℝ :=
  if method = CalcMethod.Custom then custom.getD preset else preset

/-- The computational core of `calculatePrayerTimesAdvanced`
(solar-calc.ts lines 95-192), producing the six local-hour values.  The
mutation of `delta`/`EoT`/`solarNoon` is threaded explicitly: each
`solvePrayer` call starts from the state left by the previous one, and the
Dhuhr block re-derives all three state variables from the solar model at
local hour 12 before Asr runs. -/
def calcLocals (lat lng timezone : ℝ) (dayIndex : ℤ) (method : CalcMethod)
    (asrShadow : ℝ) (customFajrAngle customIshaAngle : Option ℝ) : Locals :=
  let fajrAngle := resolveAngle method customFajrAngle (METHOD_ANGLES method).1
  let ishaAngle := resolveAngle method customIshaAngle (METHOD_ANGLES method).2
  let st0 := initSt lng timezone dayIndex
  let pF := solvePrayer lat lng timezone dayIndex fajrAngle true st0
  let pS := solvePrayer lat lng timezone dayIndex (-0.833) true pF.1
  let stD := dhuhrSt lng timezone dayIndex
  let asrAlt := asrAltitudeDeg lat stD.delta asrShadow
  let pA := solvePrayer lat lng timezone dayIndex asrAlt false stD
  let pM := solvePrayer lat lng timezone dayIndex (-0.833) false pA.1
  let ishaLocal :=
    if method = CalcMethod.UmmAlQura ∧ ishaAngle ≤ -90 then pM.2 + minsToHours 90
    else (solvePrayer lat lng timezone dayIndex ishaAngle false pM.1).2
  ⟨pF.2, pS.2, stD.noon, pA.2, pM.2, ishaLocal⟩

/-- The `_mins` record (solar-calc.ts lines 195-202). -/
structure PrayerMins where
  fajr : ℤ
  sunrise : ℤ
  dhuhr : ℤ
  asr : ℤ
  maghrib : ℤ
  isha : ℤ

/-- The `PrayerTimes` result record of solar-calc.ts lines 2-11.  The `_mins`
map is optional in the TypeScript type but is always populated by
`calculatePrayerTimesAdvanced`, so it is embedded as a plain field. -/
structure PrayerTimes where
  fajr : String
  sunrise : String
  dhuhr : String
  asr : String
  maghrib : String
  isha : String
  mins : PrayerMins

/-- `calculatePrayerTimesAdvanced` of solar-calc.ts lines 95-215. -/
def calculatePrayerTimesAdvanced (lat lng timezone : ℝ) (dayIndex : ℤ)
    (method : CalcMethod) (asrShadow : ℝ)
    (customFajrAngle customIshaAngle : Option ℝ) : PrayerTimes :=
  let L := calcLocals lat lng timezone dayIndex method asrShadow
    customFajrAngle customIshaAngle
  { fajr := formatHM L.fajr
    sunrise := formatHM L.sunrise
    dhuhr := formatHM L.dhuhr
    asr := formatHM L.asr
    maghrib := formatHM L.maghrib
    isha := formatHM L.isha
    mins := ⟨hoursToMins L.fajr, hoursToMins L.sunrise, hoursToMins L.dhuhr,
      hoursToMins L.asr, hoursToMins L.maghrib, hoursToMins L.isha⟩ }

/-! ### The legacy single-pass calculator (second unnamed source file) -/

/-- Solar declination of the legacy calculator (line 30), from the 1-based
day-of-year `N` (the embedding takes `N` directly; the source derives it from
the `Date` by `Math.floor(diff / oneDay) + 1`). -/
def legacyDelta (N : ℤ) : ℝ := 23.45 * Real.sin (d2r ((360 / 365) * ((N : ℝ) - 81)))

/-- Equation of time of the legacy calculator (lines 33-37). -/
def legacyEoT (N : ℤ) : ℝ :=
  let B := (360 / 365) * ((N : ℝ) - 81)
  9.87 * Real.sin (d2r (2 * B)) - 7.53 * Real.cos (d2r B) - 1.5 * Real.sin (d2r B)

/-- `solarNoon = 12 + timezone - lng / 15 - EoT / 60` (legacy line 40). -/
def legacySolarNoon (lng timezone : ℝ) (N : ℤ) : ℝ :=
  12 + timezone - lng / 15 - legacyEoT N / 60

/-- `calculateHourAngle` of the legacy calculator (lines 43-52); it clamps
`cosH` into `[-1, 1]` via `Math.min(1, Math.max(-1, cosH))`. -/
def calculateHourAngle (lat : ℝ) (N : ℤ) (angle : ℝ) : ℝ :=
  let phi := d2r lat
  let d := d2r (legacyDelta N)
  let cosH := (Real.sin (d2r angle) - Real.sin phi * Real.sin d) /
    (Real.cos phi * Real.cos d)
  r2d (Real.arccos (min 1 (max (-1) cosH)))

/-- Rendering `` `${finalH}:${mm} ${period}` `` for the legacy formatter; the
hour is printed as a JavaScript number (possibly negative), hence `toString`
on `ℤ`. -/
def renderClockL (fh m : ℤ) (pm : Bool) : String :=
  toString fh ++ ":" ++ padMin m.toNat ++ " " ++ (if pm then "PM" else "AM")

/-- `formatTime` of the legacy calculator (lines 55-68).  Note: a single
conditional `±24` instead of modular wrapping, `Math.floor` for the minute,
and JavaScript `%` (truncated remainder, `Int.tmod`) on the display hour. -/
def formatTime (hours : ℝ) : String :=
  let hours1 := if hours < 0 then hours + 24 else hours
  let hours2 := if 24 ≤ hours1 then hours1 - 24 else hours1
  let h : ℤ := ⌊hours2⌋
  let m : ℤ := ⌊(hours2 - (h : ℝ)) * 60⌋
  let h2 := if m = 60 then h + 1 else h
  let m2 := if m = 60 then 0 else m
  let displayH := Int.tmod h2 24
  let pm : Bool := 12 ≤ displayH
  let finalH := if Int.tmod displayH 12 = 0 then 12 else Int.tmod displayH 12
  renderClockL finalH m2 pm

/-- `asrAltitude` of the legacy calculator (lines 77-81). -/
def legacyAsrAltitude (lat : ℝ) (N : ℤ) (asrShadow : ℝ) : ℝ :=
  -r2d (Real.arctan (1 / (asrShadow + Real.tan |d2r lat - d2r (legacyDelta N)|)))

/-- Result record of the legacy calculator (six strings only). -/
structure LegacyTimes where
  fajr : String
  sunrise : String
  dhuhr : String
  asr : String
  maghrib : String
  isha : String

/-- `calculatePrayerTimes` of the legacy calculator (lines 14-92).  Each
guarded field is `H ? formatTime(...) : "--:--"`: a JavaScript number is
falsy exactly when it is `0` (or NaN, which cannot arise in the real-valued
model since `cosH` is clamped before `acos`). -/
def calculatePrayerTimes (lat lng timezone : ℝ) (N : ℤ)
    (fajrAngle ishaAngle asrShadow : ℝ) : LegacyTimes :=
  let solarNoon := legacySolarNoon lng timezone N
  let Hfajr := calculateHourAngle lat N fajrAngle
  let Hsunrise := calculateHourAngle lat N (-0.833)
  let Hmaghrib := calculateHourAngle lat N (-0.833)
  let Hisha := calculateHourAngle lat N ishaAngle
  let Hasr := calculateHourAngle lat N (legacyAsrAltitude lat N asrShadow)
  { fajr := if Hfajr = 0 then "--:--" else formatTime (solarNoon - Hfajr / 15)
    sunrise := if Hsunrise = 0 then "--:--" else formatTime (solarNoon - Hsunrise / 15)
    dhuhr := formatTime solarNoon
    asr := if Hasr = 0 then "--:--" else formatTime (solarNoon + Hasr / 15)
    maghrib := if Hmaghrib = 0 then "--:--" else formatTime (solarNoon + Hmaghrib / 15)
    isha := if Hisha = 0 then "--:--" else formatTime (solarNoon + Hisha / 15) }

/-- The five events of the legacy calculator whose result field is guarded by
the numeric truthiness check on the hour angle (all except Dhuhr). -/
inductive LegacyEvent where
  | fajr | sunrise | asr | maghrib | isha
deriving DecidableEq, Repr

/-- The hour angle the legacy calculator computes for a guarded event. -/
def legacyEventH (lat : ℝ) (N : ℤ) (fajrAngle ishaAngle asrShadow : ℝ) :
    LegacyEvent → ℝ
  | .fajr => calculateHourAngle lat N fajrAngle
  | .sunrise => calculateHourAngle lat N (-0.833)
  | .asr => calculateHourAngle lat N (legacyAsrAltitude lat N asrShadow)
  | .maghrib => calculateHourAngle lat N (-0.833)
  | .isha => calculateHourAngle lat N ishaAngle

/-- The result field of a guarded legacy event. -/
def legacyField (r : LegacyTimes) : LegacyEvent → String
  | .fajr => r.fajr
  | .sunrise => r.sunrise
  | .asr => r.asr
  | .maghrib => r.maghrib
  | .isha => r.isha

/-! ### Basic facts about the angle helpers -/

lemma d2r_zero : d2r 0 = 0 := by simp [d2r]

lemma r2d_zero : r2d 0 = 0 := by simp [r2d]

lemma r2d_pi : r2d π = 180 := by
  unfold r2d
  field_simp

lemma d2r_r2d (x : ℝ) : d2r (r2d x) = x := by
  unfold d2r r2d
  field_simp

lemma clamp_of_one_le {v : ℝ} (h : 1 ≤ v) : clamp v = 1 := by
  unfold clamp
  rw [min_eq_left h, max_eq_right (by norm_num : (-1 : ℝ) ≤ 1)]

lemma clamp_of_le_neg_one {v : ℝ} (h : v ≤ -1) : clamp v = -1 := by
  unfold clamp
  rw [min_eq_right (le_trans h (by norm_num)), max_eq_left h]

lemma clamp_of_mem {v : ℝ} (h1 : -1 ≤ v) (h2 : v ≤ 1) : clamp v = v := by
  unfold clamp
  rw [min_eq_right h2, max_eq_right h1]

lemma hourAngleDeg_of_one_le {l d a : ℝ} (h : 1 ≤ rawCosH l d a) :
    hourAngleDeg l d a = 0 := by
  unfold hourAngleDeg
  rw [clamp_of_one_le h, Real.arccos_one, r2d_zero]

lemma hourAngleDeg_of_le_neg_one {l d a : ℝ} (h : rawCosH l d a ≤ -1) :
    hourAngleDeg l d a = 180 := by
  unfold hourAngleDeg
  rw [clamp_of_le_neg_one h, Real.arccos_neg_one, r2d_pi]

/-! ### C7: the solar position model -/

/-- Modelled from the spec (section 4.2), word for word: `B = (360/365) *
(dayFraction - 81)` degrees, `δ = 23.45 * sin(B)`, `EoT = 9.87*sin(2B) -
7.53*cos(B) - 1.5*sin(B)` minutes.  To be compared with the source's
`declinationAndEoTFromNf`. -/
def specSolarState (dayFraction : ℝ) : ℝ × ℝ :=
  let B := (360 / 365) * (dayFraction - 81)
  (23.45 * Real.sin (d2r B),
    9.87 * Real.sin (d2r (2 * B)) - 7.53 * Real.cos (d2r B) - 1.5 * Real.sin (d2r B))

/-- C7: for every real day fraction, the solar position model returns exactly
the declination `23.45 * sin(B)` and equation of time `9.87*sin(2B) -
7.53*cos(B) - 1.5*sin(B)` with `B = (360/365)*(Nf - 81)` degrees; it is a
pure total function of the input with no branching. -/
theorem C7_solar_model (Nf : ℝ) : declinationAndEoTFromNf Nf = specSolarState Nf := by
  unfold declinationAndEoTFromNf specSolarState
  have h : d2r (2 * ((360 / 365) * (Nf - 81))) = 2 * d2r ((360 / 365) * (Nf - 81)) := by
    unfold d2r; ring
  simp only []
  rw [h]

/-! ### C1: the hour-angle solver clamps instead of returning a sentinel -/

/-- C1 (counterexample): at latitude 60, declination -60, target altitude 0 the
raw cosine is 3 (outside `[-1,1]`), yet `hourAngleDeg` returns the numeric
hour angle 0 — it clamps; there is no `Unreachable` sentinel in its codomain.
Likewise the legacy `calculateHourAngle` (latitude 60, day 81, altitude 90,
raw cosine 2 > 1) returns 0. -/
theorem C1_cex :
    rawCosH 60 (-60) 0 = 3 ∧ hourAngleDeg 60 (-60) 0 = 0 ∧
      1 < rawCosH 60 (legacyDelta 81) 90 ∧ calculateHourAngle 60 81 90 = 0 := by
  have h60 : d2r 60 = π / 3 := by unfold d2r; ring
  have hm60 : d2r (-60) = -(π / 3) := by unfold d2r; ring
  have h90 : d2r 90 = π / 2 := by unfold d2r; ring
  have hδ : legacyDelta 81 = 0 := by
    unfold legacyDelta
    norm_num [d2r_zero]
  have hsqrt3 : Real.sqrt 3 * Real.sqrt 3 = 3 :=
    Real.mul_self_sqrt (by norm_num)
  have hraw : rawCosH 60 (-60) 0 = 3 := by
    unfold rawCosH
    rw [h60, hm60, d2r_zero, Real.sin_zero, Real.sin_neg, Real.cos_neg,
      Real.sin_pi_div_three, Real.cos_pi_div_three]
    rw [div_eq_iff (by norm_num)]
    nlinarith [hsqrt3]
  have hraw2 : rawCosH 60 (legacyDelta 81) 90 = 2 := by
    unfold rawCosH
    rw [hδ, h60, h90, d2r_zero, Real.sin_zero, Real.cos_zero,
      Real.sin_pi_div_two, Real.cos_pi_div_three]
    norm_num
  refine ⟨hraw, hourAngleDeg_of_one_le (by rw [hraw]; norm_num), by rw [hraw2]; norm_num, ?_⟩
  show r2d (Real.arccos (min 1 (max (-1)
    ((Real.sin (d2r 90) - Real.sin (d2r 60) * Real.sin (d2r (legacyDelta 81))) /
      (Real.cos (d2r 60) * Real.cos (d2r (legacyDelta 81))))))) = 0
  have : (Real.sin (d2r 90) - Real.sin (d2r 60) * Real.sin (d2r (legacyDelta 81))) /
      (Real.cos (d2r 60) * Real.cos (d2r (legacyDelta 81))) = rawCosH 60 (legacyDelta 81) 90 := rfl
  rw [this, hraw2]
  norm_num [Real.arccos_one, r2d_zero]

/-- C1 (amended): the hour-angle solver clamps `cosH` into `[-1,1]` before the
inverse cosine and always returns a numeric hour angle in degrees: `0` when
the raw cosine is ≥ 1 and `180` when it is ≤ -1.  No `Unreachable` sentinel
exists or is returned. -/
theorem C1_clamped (l d a : ℝ) :
    (1 ≤ rawCosH l d a → hourAngleDeg l d a = 0) ∧
      (rawCosH l d a ≤ -1 → hourAngleDeg l d a = 180) :=
  ⟨hourAngleDeg_of_one_le, hourAngleDeg_of_le_neg_one⟩

/-- Witness for `C1_clamped`, discharging both hypotheses at concrete inputs:
the raw cosine is 3 at `(60, -60, 0)` and -3 at `(60, 60, 0)`. -/
theorem C1_clamped_witness :
    hourAngleDeg 60 (-60) 0 = 0 ∧ hourAngleDeg 60 60 0 = 180 := by
  have h60 : d2r 60 = π / 3 := by unfold d2r; ring
  have hm60 : d2r (-60) = -(π / 3) := by unfold d2r; ring
  have hsqrt3 : Real.sqrt 3 * Real.sqrt 3 = 3 :=
    Real.mul_self_sqrt (by norm_num)
  have hraw : rawCosH 60 (-60) 0 = 3 := by
    unfold rawCosH
    rw [h60, hm60, d2r_zero, Real.sin_zero, Real.sin_neg, Real.cos_neg,
      Real.sin_pi_div_three, Real.cos_pi_div_three]
    rw [div_eq_iff (by norm_num)]
    nlinarith [hsqrt3]
  have hraw2 : rawCosH 60 60 0 = -3 := by
    unfold rawCosH
    rw [h60, d2r_zero, Real.sin_zero, Real.sin_pi_div_three, Real.cos_pi_div_three]
    rw [div_eq_iff (by norm_num)]
    nlinarith [hsqrt3]
  exact ⟨(C1_clamped 60 (-60) 0).1 (by rw [hraw]; norm_num),
    (C1_clamped 60 60 0).2 (by rw [hraw2]; norm_num)⟩

/-! ### C3: the iterative solver structure -/

/-- The noon refinement step of the Dhuhr block: re-evaluate the solar model
at the current solar-noon estimate and recompute the noon. -/
def noonStep (lng timezone : ℝ) (dayIndex : ℤ) (n : ℝ) : ℝ :=
  noonOf lng timezone (getSolarAtLocalHour timezone dayIndex n).2

/-- C3: every event solved by `solvePrayer` is computed as an initial estimate
`t₀ = noon ∓ H/15` from the entering solar state followed by exactly three
iterations of the refinement step (which re-evaluates the solar position
model at the current estimate, recomputes the noon and the hour angle, and
recomputes `t`); the state entering the first solve is the solar state
evaluated at local hour 12; and Dhuhr is the degenerate case using only a
2-iteration noon refinement loop, yielding the refined solar noon directly. -/
theorem C3_solver_structure (lat lng timezone : ℝ) (dayIndex : ℤ)
    (method : CalcMethod) (asrShadow : ℝ) (cf ci : Option ℝ)
    (alphaDeg : ℝ) (beforeNoon : Bool) (st : SolarSt) :
    solvePrayer lat lng timezone dayIndex alphaDeg beforeNoon st =
      (solveStep lat lng timezone dayIndex alphaDeg beforeNoon)^[3]
        (st, if beforeNoon then st.noon - hourAngleDeg lat st.delta alphaDeg / 15
          else st.noon + hourAngleDeg lat st.delta alphaDeg / 15) ∧
    initSt lng timezone dayIndex =
      ⟨(getSolarAtLocalHour timezone dayIndex 12).1,
        (getSolarAtLocalHour timezone dayIndex 12).2,
        noonOf lng timezone (getSolarAtLocalHour timezone dayIndex 12).2⟩ ∧
    (calcLocals lat lng timezone dayIndex method asrShadow cf ci).fajr =
      (solvePrayer lat lng timezone dayIndex
        (resolveAngle method cf (METHOD_ANGLES method).1) true
        (initSt lng timezone dayIndex)).2 ∧
    (calcLocals lat lng timezone dayIndex method asrShadow cf ci).dhuhr =
      (noonStep lng timezone dayIndex)^[2]
        (noonOf lng timezone (getSolarAtLocalHour timezone dayIndex 12).2) :=
  ⟨rfl, rfl, rfl, rfl⟩

/-! ### C6: UmmAlQura Isha is Maghrib plus 90 minutes -/

/-- C6: with the `UmmAlQura` method (for every latitude, longitude, timezone,
date, shadow factor and custom-angle options), Isha is not solved from an
altitude angle: the raw Isha local hour equals the raw Maghrib local hour
plus 90 minutes, and the `_mins` entry for Isha equals the one for Maghrib
plus 90. -/
theorem C6_ummAlQura_isha (lat lng timezone : ℝ) (dayIndex : ℤ)
    (asrShadow : ℝ) (cf ci : Option ℝ) :
    (calcLocals lat lng timezone dayIndex CalcMethod.UmmAlQura asrShadow cf ci).isha =
      (calcLocals lat lng timezone dayIndex CalcMethod.UmmAlQura asrShadow cf ci).maghrib
        + minsToHours 90 ∧
    (calculatePrayerTimesAdvanced lat lng timezone dayIndex CalcMethod.UmmAlQura
        asrShadow cf ci).mins.isha =
      (calculatePrayerTimesAdvanced lat lng timezone dayIndex CalcMethod.UmmAlQura
        asrShadow cf ci).mins.maghrib + 90 := by
  have hang : resolveAngle CalcMethod.UmmAlQura ci
      (METHOD_ANGLES CalcMethod.UmmAlQura).2 = -90 := by
    unfold resolveAngle METHOD_ANGLES
    rw [if_neg (by decide : ¬(CalcMethod.UmmAlQura = CalcMethod.Custom))]
  have hloc : (calcLocals lat lng timezone dayIndex CalcMethod.UmmAlQura asrShadow cf ci).isha =
      (calcLocals lat lng timezone dayIndex CalcMethod.UmmAlQura asrShadow cf ci).maghrib
        + minsToHours 90 := by
    unfold calcLocals
    rw [hang]
    norm_num
  refine ⟨hloc, ?_⟩
  show hoursToMins (calcLocals lat lng timezone dayIndex CalcMethod.UmmAlQura
      asrShadow cf ci).isha =
    hoursToMins (calcLocals lat lng timezone dayIndex CalcMethod.UmmAlQura
      asrShadow cf ci).maghrib + 90
  rw [hloc]
  unfold hoursToMins minsToHours
  have : ((calcLocals lat lng timezone dayIndex CalcMethod.UmmAlQura asrShadow cf ci).maghrib
      + (90 : ℝ) / 60) * 60 =
      (calcLocals lat lng timezone dayIndex CalcMethod.UmmAlQura asrShadow cf ci).maghrib * 60
        + ((90 : ℤ) : ℝ) := by
    push_cast
    ring
  rw [this, round_add_int]

/-! ### C10: zero hour angles render the legacy placeholder -/

/-- C10: in the legacy calculator, whenever the computed hour angle of a
guarded event is exactly 0 (e.g. when the clamped cosine equals 1), that
event's result field is the placeholder string `"--:--"` — because the field
is guarded by a numeric truthiness check on the hour angle — while the
unguarded Dhuhr field is always the formatted solar-noon clock time. -/
theorem C10_truthiness_guard (lat lng timezone : ℝ) (N : ℤ)
    (fajrAngle ishaAngle asrShadow : ℝ) (e : LegacyEvent)
    (h : legacyEventH lat N fajrAngle ishaAngle asrShadow e = 0) :
    legacyField (calculatePrayerTimes lat lng timezone N fajrAngle ishaAngle asrShadow) e
        = "--:--" ∧
      (calculatePrayerTimes lat lng timezone N fajrAngle ishaAngle asrShadow).dhuhr
        = formatTime (legacySolarNoon lng timezone N) := by
  refine ⟨?_, rfl⟩
  cases e with
  | fajr =>
    simp only [legacyEventH] at h
    show (if calculateHourAngle lat N fajrAngle = 0 then "--:--" else _) = "--:--"
    rw [if_pos h]
  | sunrise =>
    simp only [legacyEventH] at h
    show (if calculateHourAngle lat N (-0.833) = 0 then "--:--" else _) = "--:--"
    rw [if_pos h]
  | asr =>
    simp only [legacyEventH] at h
    show (if calculateHourAngle lat N (legacyAsrAltitude lat N asrShadow) = 0
      then "--:--" else _) = "--:--"
    rw [if_pos h]
  | maghrib =>
    simp only [legacyEventH] at h
    show (if calculateHourAngle lat N (-0.833) = 0 then "--:--" else _) = "--:--"
    rw [if_pos h]
  | isha =>
    simp only [legacyEventH] at h
    show (if calculateHourAngle lat N ishaAngle = 0 then "--:--" else _) = "--:--"
    rw [if_pos h]

/-- Witness for `C10_truthiness_guard`: at the equator on day 81 (declination
exactly 0) with a caller-supplied Fajr angle of 90°, the Fajr hour angle is
exactly 0 (clamped cosine 1), and the Fajr field is the placeholder while
Dhuhr is the formatted solar noon. -/
theorem C10_truthiness_guard_witness :
    legacyField (calculatePrayerTimes 0 0 0 81 90 (-18) 1) LegacyEvent.fajr = "--:--" ∧
      (calculatePrayerTimes 0 0 0 81 90 (-18) 1).dhuhr
        = formatTime (legacySolarNoon 0 0 81) := by
  have hδ : legacyDelta 81 = 0 := by
    unfold legacyDelta
    norm_num [d2r_zero]
  have h90 : d2r 90 = π / 2 := by unfold d2r; ring
  have h : legacyEventH 0 81 90 (-18) 1 LegacyEvent.fajr = 0 := by
    show calculateHourAngle 0 81 90 = 0
    unfold calculateHourAngle
    rw [hδ, h90]
    simp only [d2r_zero, Real.sin_zero, Real.cos_zero, Real.sin_pi_div_two]
    norm_num [Real.arccos_one, r2d_zero]
  exact C10_truthiness_guard 0 0 0 81 90 (-18) 1 LegacyEvent.fajr h

/-! ### The formatter: wrapping, digit bounds, clock-string shape -/

lemma jsMod_of_nonneg (x : ℝ) (h : 0 ≤ x) :
    jsMod x 24 = x - 24 * (⌊x / 24⌋ : ℝ) := by
  unfold jsMod jsTrunc
  rw [if_pos (by positivity)]

/-- The double-remainder trick `(x % 24 + 24) % 24` of the formatter equals
the mathematical reduction of `x` modulo 24 for every real `x`. -/
lemma wrap24_eq (x : ℝ) : wrap24 x = x - 24 * (⌊x / 24⌋ : ℝ) := by
  have hfl : (⌊x / 24⌋ : ℝ) ≤ x / 24 := Int.floor_le _
  have hfu : x / 24 < (⌊x / 24⌋ : ℝ) + 1 := Int.lt_floor_add_one _
  have hx24 : x = 24 * (x / 24) := by ring
  unfold wrap24
  rcases le_or_lt 0 x with hx | hx
  · rw [jsMod_of_nonneg x hx]
    have h1 : 0 ≤ x - 24 * (⌊x / 24⌋ : ℝ) := by nlinarith
    have h2 : x - 24 * (⌊x / 24⌋ : ℝ) < 24 := by nlinarith
    rw [jsMod_of_nonneg _ (by linarith)]
    have hfloor : ⌊(x - 24 * (⌊x / 24⌋ : ℝ) + 24) / 24⌋ = 1 := by
      rw [Int.floor_eq_iff]
      constructor
      · push_cast
        rw [le_div_iff (by norm_num : (0:ℝ) < 24)]
        linarith
      · push_cast
        rw [div_lt_iff (by norm_num : (0:ℝ) < 24)]
        linarith
    rw [hfloor]
    push_cast
    ring
  · have hdneg : x / 24 < 0 := div_neg_of_neg_of_pos hx (by norm_num)
    have hstep1 : jsMod x 24 = x - 24 * (⌈x / 24⌉ : ℝ) := by
      unfold jsMod jsTrunc
      rw [if_neg (by linarith)]
    rw [hstep1]
    have hcl : x / 24 ≤ (⌈x / 24⌉ : ℝ) := Int.le_ceil _
    have hcu : (⌈x / 24⌉ : ℝ) < x / 24 + 1 := Int.ceil_lt_add_one _
    have hg1 : x - 24 * (⌈x / 24⌉ : ℝ) ≤ 0 := by nlinarith
    have hg2 : -24 < x - 24 * (⌈x / 24⌉ : ℝ) := by nlinarith
    rcases eq_or_lt_of_le hg1 with hg0 | hg0
    · -- `x` is an exact multiple of 24
      have hxeq : x = 24 * (⌈x / 24⌉ : ℝ) := by linarith
      have hqd : x / 24 = (⌈x / 24⌉ : ℝ) := by
        rw [div_eq_iff (by norm_num : (24:ℝ) ≠ 0)]
        linarith
      have hfe : ⌊x / 24⌋ = ⌈x / 24⌉ := by
        rw [Int.floor_eq_iff]
        constructor
        · linarith
        · linarith
      rw [hg0]
      have h24 : jsMod (0 + 24) 24 = 0 := by
        rw [jsMod_of_nonneg _ (by norm_num)]
        norm_num
      rw [h24, hfe]
      linarith
    · have harg : 0 < x - 24 * (⌈x / 24⌉ : ℝ) + 24 := by linarith
      rw [jsMod_of_nonneg _ (by linarith)]
      have hfloor : ⌊(x - 24 * (⌈x / 24⌉ : ℝ) + 24) / 24⌋ = 0 := by
        rw [Int.floor_eq_iff]
        constructor
        · push_cast
          positivity
        · push_cast
          rw [div_lt_iff (by norm_num : (0:ℝ) < 24)]
          linarith
      rw [hfloor]
      have hfe : (⌊x / 24⌋ : ℝ) = (⌈x / 24⌉ : ℝ) - 1 := by
        have : ⌊x / 24⌋ = ⌈x / 24⌉ - 1 := by
          rw [Int.floor_eq_iff]
          constructor
          · push_cast
            rw [le_div_iff (by norm_num : (0:ℝ) < 24)]
            linarith
          · push_cast
            rw [div_lt_iff (by norm_num : (0:ℝ) < 24)]
            linarith
        rw [this]
        push_cast
        ring
      rw [hfe]
      push_cast
      ring

lemma wrap24_nonneg (x : ℝ) : 0 ≤ wrap24 x := by
  rw [wrap24_eq]
  have := Int.floor_le (x / 24)
  nlinarith

lemma wrap24_lt (x : ℝ) : wrap24 x < 24 := by
  rw [wrap24_eq]
  have := Int.lt_floor_add_one (x / 24)
  nlinarith

/-- The wrapped value is 24-periodic. -/
lemma wrap24_period (x : ℝ) (k : ℤ) : wrap24 (x + 24 * k) = wrap24 x := by
  rw [wrap24_eq, wrap24_eq]
  have h1 : (x + 24 * (k : ℝ)) / 24 = x / 24 + (k : ℝ) := by ring
  rw [h1, Int.floor_add_int]
  push_cast
  ring

lemma fmtH_nonneg (x : ℝ) : 0 ≤ fmtH x :=
  Int.floor_nonneg.mpr (wrap24_nonneg x)

lemma fmtH_le (x : ℝ) : fmtH x ≤ 23 := by
  have : fmtH x < 24 := by
    unfold fmtH
    exact Int.floor_lt.mpr (by exact_mod_cast wrap24_lt x)
  omega

lemma fmtMraw_nonneg (x : ℝ) : 0 ≤ fmtMraw x := by
  unfold fmtMraw
  rw [round_eq]
  apply Int.floor_nonneg.mpr
  have h1 : (fmtH x : ℝ) ≤ wrap24 x := Int.floor_le _
  nlinarith

lemma fmtMraw_le (x : ℝ) : fmtMraw x ≤ 60 := by
  unfold fmtMraw
  rw [round_eq]
  have h2 : wrap24 x < (fmtH x : ℝ) + 1 := Int.lt_floor_add_one _
  have : ⌊(wrap24 x - (fmtH x : ℝ)) * 60 + 1 / 2⌋ < 61 := by
    apply Int.floor_lt.mpr
    push_cast
    nlinarith
  omega

lemma fmtHc_nonneg (x : ℝ) : 0 ≤ fmtHc x := by
  unfold fmtHc
  have h1 := fmtH_nonneg x
  have h2 := fmtH_le x
  split_ifs <;> omega

lemma fmtHc_le (x : ℝ) : fmtHc x ≤ 23 := by
  unfold fmtHc
  have h1 := fmtH_nonneg x
  have h2 := fmtH_le x
  split_ifs <;> omega

lemma fmtMc_nonneg (x : ℝ) : 0 ≤ fmtMc x := by
  unfold fmtMc
  have := fmtMraw_nonneg x
  split_ifs <;> omega

lemma fmtMc_le (x : ℝ) : fmtMc x ≤ 59 := by
  unfold fmtMc
  have := fmtMraw_le x
  split_ifs with h <;> omega

lemma fmtDisplayH_one_le (x : ℝ) : 1 ≤ fmtDisplayH x := by
  unfold fmtDisplayH
  have h1 := fmtHc_nonneg x
  have h2 := fmtHc_le x
  split_ifs with h <;> omega

lemma fmtDisplayH_le (x : ℝ) : fmtDisplayH x ≤ 12 := by
  unfold fmtDisplayH
  have h1 := fmtHc_nonneg x
  have h2 := fmtHc_le x
  split_ifs with h <;> omega

/-- A rendered clock string with a display hour in `1..12` is never the
legacy placeholder `"--:--"` (its first character is a digit). -/
lemma renderClock_ne_placeholder (dh m : ℤ) (pm : Bool)
    (h1 : 1 ≤ dh) (h2 : dh ≤ 12) : renderClock dh m pm ≠ "--:--" := by
  unfold renderClock
  interval_cases dh <;>
  · intro h
    have hd := congrArg String.data h
    rw [String.data_append, String.data_append, String.data_append,
      String.data_append] at hd
    first
      | rw [show (Nat.repr (Int.toNat 1)).data = ['1'] from rfl] at hd
      | rw [show (Nat.repr (Int.toNat 2)).data = ['2'] from rfl] at hd
      | rw [show (Nat.repr (Int.toNat 3)).data = ['3'] from rfl] at hd
      | rw [show (Nat.repr (Int.toNat 4)).data = ['4'] from rfl] at hd
      | rw [show (Nat.repr (Int.toNat 5)).data = ['5'] from rfl] at hd
      | rw [show (Nat.repr (Int.toNat 6)).data = ['6'] from rfl] at hd
      | rw [show (Nat.repr (Int.toNat 7)).data = ['7'] from rfl] at hd
      | rw [show (Nat.repr (Int.toNat 8)).data = ['8'] from rfl] at hd
      | rw [show (Nat.repr (Int.toNat 9)).data = ['9'] from rfl] at hd
      | rw [show (Nat.repr (Int.toNat 10)).data = ['1', '0'] from rfl] at hd
      | rw [show (Nat.repr (Int.toNat 11)).data = ['1', '1'] from rfl] at hd
      | rw [show (Nat.repr (Int.toNat 12)).data = ['1', '2'] from rfl] at hd
    simp at hd

/-- A string has clock shape when it is the rendering of a display hour in
`1..12`, a minute in `0..59` and an AM/PM flag. -/
def ClockString (s : String) : Prop :=
  ∃ dh m : ℤ, ∃ pm : Bool,
    1 ≤ dh ∧ dh ≤ 12 ∧ 0 ≤ m ∧ m ≤ 59 ∧ s = renderClock dh m pm

lemma formatHM_clockString (x : ℝ) : ClockString (formatHM x) :=
  ⟨fmtDisplayH x, fmtMc x, fmtIsPM x, fmtDisplayH_one_le x, fmtDisplayH_le x,
    fmtMc_nonneg x, fmtMc_le x, rfl⟩

lemma formatHM_ne_placeholder (x : ℝ) : formatHM x ≠ "--:--" :=
  renderClock_ne_placeholder _ _ _ (fmtDisplayH_one_le x) (fmtDisplayH_le x)

/-! ### C9: the advanced time formatter -/

lemma padMin_length (m : ℕ) (hm : m ≤ 59) : (padMin m).length = 2 := by
  interval_cases m <;> rfl

/-- Modelled from the spec (section 4.7), word for word: wrap `hoursFloat`
into `[0,24)` using (mathematical) modular arithmetic, split into integer
hour and rounded minute, carry a minute overflow of 60 into the hour with
hour wraparound at 24, then render 12-hour civil time with AM/PM and
zero-padded minutes.  To be compared with the source's `formatHM`. -/
def specFormatHM (x : ℝ) : String :=
  let w := x - 24 * (⌊x / 24⌋ : ℝ)
  let h : ℤ := ⌊w⌋
  let m : ℤ := round ((w - (h : ℝ)) * 60)
  let hc := if m = 60 then (h + 1) % 24 else h
  let mc := if m = 60 then 0 else m
  renderClock (if hc % 12 = 0 then 12 else hc % 12) mc (12 ≤ hc)

/-- C9: the formatter wraps every finite real input into `[0,24)` by modular
arithmetic (the `(x % 24 + 24) % 24` trick agrees with the mathematical
reduction mod 24), splits it into integer hour and rounded minute, carries a
minute overflow of 60 into the hour with wraparound at 24, and renders
12-hour time with AM/PM and a zero-padded two-digit minute; in particular
`formatHM (x + 24k) = formatHM x` for every integer `k`. -/
theorem C9_formatter (x : ℝ) :
    formatHM x = specFormatHM x ∧
      (∀ k : ℤ, formatHM (x + 24 * k) = formatHM x) ∧
      (padMin (fmtMc x).toNat).length = 2 := by
  refine ⟨?_, ?_, padMin_length _ (by have := fmtMc_le x; omega)⟩
  · unfold formatHM specFormatHM fmtDisplayH fmtIsPM fmtMc fmtHc fmtMraw fmtH
    rw [wrap24_eq]
  · intro k
    unfold formatHM fmtDisplayH fmtIsPM fmtMc fmtHc fmtMraw fmtH
    rw [wrap24_period]

/-! ### C2: no Unreachable placeholder in the advanced calculator -/

/-- C2 (counterexample): for latitude 80°N on the winter solstice (day 355,
e.g. 21 Dec 2001) with the MWL preset angles, the advanced calculator does
NOT return the Unreachable placeholder for Fajr and Isha: both fields are
ordinary formatted clock strings (the solver clamps `cosH` and always
produces a numeric local hour; no placeholder string exists in
`calculatePrayerTimesAdvanced` at all). -/
theorem C2_cex :
    (calculatePrayerTimesAdvanced 80 0 0 355 CalcMethod.MWL 1 none none).fajr ≠ "--:--" ∧
      (calculatePrayerTimesAdvanced 80 0 0 355 CalcMethod.MWL 1 none none).isha ≠ "--:--" ∧
      ClockString (calculatePrayerTimesAdvanced 80 0 0 355 CalcMethod.MWL 1 none none).fajr ∧
      ClockString (calculatePrayerTimesAdvanced 80 0 0 355 CalcMethod.MWL 1 none none).isha :=
  ⟨formatHM_ne_placeholder _, formatHM_ne_placeholder _,
    formatHM_clockString _, formatHM_clockString _⟩

/-- C2 (amended): the advanced calculator never degrades to a placeholder:
for every input — in particular latitude 80 on the winter-solstice day with
preset angles — the Fajr and Isha fields are formatted 12-hour clock strings
produced by `formatHM` from the numerically solved (clamped) local hours,
never a placeholder, NaN-derived string or exception. -/
theorem C2_always_clock (lat lng timezone : ℝ) (dayIndex : ℤ)
    (method : CalcMethod) (asrShadow : ℝ) (cf ci : Option ℝ) :
    ClockString (calculatePrayerTimesAdvanced lat lng timezone dayIndex method
        asrShadow cf ci).fajr ∧
      ClockString (calculatePrayerTimesAdvanced lat lng timezone dayIndex method
        asrShadow cf ci).isha :=
  ⟨formatHM_clockString _, formatHM_clockString _⟩

/-! ### C5: the `_mins` map versus the formatted strings -/

/-- The minutes-since-midnight denoted by a rendered 12-hour clock reading
(display hour `dh`, minute `m`, AM/PM flag `pm`). -/
def clockMinutes (dh m : ℤ) (pm : Bool) : ℤ :=
  (dh % 12 + if pm then 12 else 0) * 60 + m

lemma clockMinutes_nonneg (dh m : ℤ) (pm : Bool) (h1 : 1 ≤ dh) (h3 : 0 ≤ m) :
    0 ≤ clockMinutes dh m pm := by
  cases pm <;> simp [clockMinutes] <;> omega

lemma clockMinutes_lt (dh m : ℤ) (pm : Bool) (h2 : dh ≤ 12) (h4 : m ≤ 59) :
    clockMinutes dh m pm < 1440 := by
  cases pm <;> simp [clockMinutes] <;> omega

lemma hoursToMins_eq (t : ℝ) :
    hoursToMins t = round (wrap24 t * 60) + 1440 * ⌊t / 24⌋ := by
  unfold hoursToMins
  have h : t * 60 = wrap24 t * 60 + ((1440 * ⌊t / 24⌋ : ℤ) : ℝ) := by
    rw [wrap24_eq]
    push_cast
    ring
  rw [h, round_add_int]

lemma roundW_eq (t : ℝ) : round (wrap24 t * 60) = 60 * fmtH t + fmtMraw t := by
  have h : (wrap24 t - (fmtH t : ℝ)) * 60 = wrap24 t * 60 - ((60 * fmtH t : ℤ) : ℝ) := by
    push_cast
    ring
  have h2 : fmtMraw t = round (wrap24 t * 60) - 60 * fmtH t := by
    unfold fmtMraw
    rw [h, round_sub_int]
  omega

/-- The unwrapped `_mins` value `round(60t)` agrees with the minutes denoted
by the formatted clock string exactly modulo 1440. -/
lemma hoursToMins_mod_1440 (t : ℝ) :
    hoursToMins t % 1440 = clockMinutes (fmtDisplayH t) (fmtMc t) (fmtIsPM t) := by
  have hR := roundW_eq t
  have hh0 := fmtH_nonneg t
  have hh1 := fmtH_le t
  have hm0 := fmtMraw_nonneg t
  have hm1 := fmtMraw_le t
  rw [hoursToMins_eq t, Int.add_mul_emod_self_left, hR]
  unfold clockMinutes fmtDisplayH fmtIsPM fmtMc fmtHc
  simp only [decide_eq_true_eq]
  split_ifs <;> omega

/-- The six result events of the advanced calculator. -/
inductive AdvEvent where
  | fajr | sunrise | dhuhr | asr | maghrib | isha
deriving DecidableEq, Repr

/-- Formatted string field of an event. -/
def eventStr (r : PrayerTimes) : AdvEvent → String
  | .fajr => r.fajr
  | .sunrise => r.sunrise
  | .dhuhr => r.dhuhr
  | .asr => r.asr
  | .maghrib => r.maghrib
  | .isha => r.isha

/-- `_mins` field of an event. -/
def eventMins (r : PrayerTimes) : AdvEvent → ℤ
  | .fajr => r.mins.fajr
  | .sunrise => r.mins.sunrise
  | .dhuhr => r.mins.dhuhr
  | .asr => r.mins.asr
  | .maghrib => r.mins.maghrib
  | .isha => r.mins.isha

/-- Raw local-hour value of an event. -/
def eventLocal (L : Locals) : AdvEvent → ℝ
  | .fajr => L.fajr
  | .sunrise => L.sunrise
  | .dhuhr => L.dhuhr
  | .asr => L.asr
  | .maghrib => L.maghrib
  | .isha => L.isha

/-- C5 (amended): for every input and every event, the `_mins` entry is
`round(60 · t)` for the raw local hour `t` (unwrapped, hence not necessarily
inside `[0,1440)`), the string field is `formatHM t`, and the `_mins` entry
agrees with the minutes denoted by the formatted clock string exactly modulo
1440; the denoted minutes themselves always lie in `[0,1440)`. -/
theorem C5_mins_vs_strings (lat lng timezone : ℝ) (dayIndex : ℤ)
    (method : CalcMethod) (asrShadow : ℝ) (cf ci : Option ℝ) (e : AdvEvent) :
    eventStr (calculatePrayerTimesAdvanced lat lng timezone dayIndex method
        asrShadow cf ci) e
      = formatHM (eventLocal (calcLocals lat lng timezone dayIndex method
        asrShadow cf ci) e) ∧
    eventMins (calculatePrayerTimesAdvanced lat lng timezone dayIndex method
        asrShadow cf ci) e
      = hoursToMins (eventLocal (calcLocals lat lng timezone dayIndex method
        asrShadow cf ci) e) ∧
    eventMins (calculatePrayerTimesAdvanced lat lng timezone dayIndex method
        asrShadow cf ci) e % 1440
      = clockMinutes
          (fmtDisplayH (eventLocal (calcLocals lat lng timezone dayIndex method
            asrShadow cf ci) e))
          (fmtMc (eventLocal (calcLocals lat lng timezone dayIndex method
            asrShadow cf ci) e))
          (fmtIsPM (eventLocal (calcLocals lat lng timezone dayIndex method
            asrShadow cf ci) e)) ∧
    0 ≤ clockMinutes
          (fmtDisplayH (eventLocal (calcLocals lat lng timezone dayIndex method
            asrShadow cf ci) e))
          (fmtMc (eventLocal (calcLocals lat lng timezone dayIndex method
            asrShadow cf ci) e))
          (fmtIsPM (eventLocal (calcLocals lat lng timezone dayIndex method
            asrShadow cf ci) e)) ∧
    clockMinutes
          (fmtDisplayH (eventLocal (calcLocals lat lng timezone dayIndex method
            asrShadow cf ci) e))
          (fmtMc (eventLocal (calcLocals lat lng timezone dayIndex method
            asrShadow cf ci) e))
          (fmtIsPM (eventLocal (calcLocals lat lng timezone dayIndex method
            asrShadow cf ci) e)) < 1440 := by
  cases e <;>
    exact ⟨rfl, rfl, hoursToMins_mod_1440 _,
      clockMinutes_nonneg _ _ _ (fmtDisplayH_one_le _) (fmtMc_nonneg _),
      clockMinutes_lt _ _ _ (fmtDisplayH_le _) (fmtMc_le _)⟩

/-! ### Elementary quantitative trigonometric bounds -/

lemma sin_le_self {x : ℝ} (h : 0 ≤ x) : Real.sin x ≤ x := by
  rcases eq_or_lt_of_le h with h0 | h0
  · rw [← h0]
    simp
  · exact (Real.sin_lt h0).le

lemma sin_small_lower {x : ℝ} (h0 : 0 ≤ x) (h1 : x ≤ 0.02) :
    0.9999 * x ≤ Real.sin x := by
  have hb := Real.sin_bound (x := x) (by rw [abs_of_nonneg h0]; linarith)
  rw [abs_of_nonneg h0, abs_le] at hb
  nlinarith [hb.1, hb.2, sq_nonneg x, pow_nonneg h0 3, pow_nonneg h0 4]

lemma cos_small_lower {x : ℝ} (h0 : 0 ≤ x) (h1 : x ≤ 1) :
    1 - x ^ 2 / 2 - x ^ 4 * (5 / 96) ≤ Real.cos x := by
  have hb := Real.cos_bound (x := x) (by rw [abs_of_nonneg h0]; linarith)
  rw [abs_of_nonneg h0, abs_le] at hb
  linarith [hb.1, hb.2]

lemma le_arcsin_of {y u : ℝ} (hu1 : -(π / 2) ≤ u) (hu2 : u ≤ π / 2)
    (h : Real.sin u ≤ y) : u ≤ Real.arcsin y := by
  calc u = Real.arcsin (Real.sin u) := (Real.arcsin_sin hu1 hu2).symm
  _ ≤ Real.arcsin y := Real.monotone_arcsin h

lemma arcsin_le_of {y v : ℝ} (hv1 : -(π / 2) ≤ v) (hv2 : v ≤ π / 2)
    (h : y ≤ Real.sin v) : Real.arcsin y ≤ v := by
  calc Real.arcsin y ≤ Real.arcsin (Real.sin v) := Real.monotone_arcsin h
  _ = v := Real.arcsin_sin hv1 hv2

lemma pi_lb : (3.141592 : ℝ) < π := Real.pi_gt_d6

lemma pi_ub : π < 3.141593 := Real.pi_lt_d6

lemma sqrt_two_bounds : 1.41421 ≤ Real.sqrt 2 ∧ Real.sqrt 2 ≤ 1.41422 := by
  constructor
  · nlinarith [Real.sq_sqrt (show (0:ℝ) ≤ 2 by norm_num), Real.sqrt_nonneg 2]
  · nlinarith [Real.sq_sqrt (show (0:ℝ) ≤ 2 by norm_num), Real.sqrt_nonneg 2]

lemma sqrt_three_bounds : 1.73205 ≤ Real.sqrt 3 ∧ Real.sqrt 3 ≤ 1.73206 := by
  constructor
  · nlinarith [Real.sq_sqrt (show (0:ℝ) ≤ 3 by norm_num), Real.sqrt_nonneg 3]
  · nlinarith [Real.sq_sqrt (show (0:ℝ) ≤ 3 by norm_num), Real.sqrt_nonneg 3]

lemma round_ge {x : ℝ} {k : ℤ} (h : (k : ℝ) ≤ x + 1 / 2) : k ≤ round x := by
  rw [round_eq]
  exact Int.le_floor.mpr h

lemma round_le_of {x : ℝ} {k : ℤ} (h : x + 1 / 2 < (k : ℝ) + 1) : round x ≤ k := by
  rw [round_eq]
  have h2 : ⌊x + 1 / 2⌋ < k + 1 := Int.floor_lt.mpr (by push_cast; linarith)
  omega

/-! ### Interval bounds for the concrete scenario: equator, lng 0, UTC+12,
day-of-year 81 (22 March of a non-leap year). -/

lemma declFst (Nf : ℝ) : (declinationAndEoTFromNf Nf).1
    = 23.45 * Real.sin (d2r ((360 / 365) * (Nf - 81))) := rfl

lemma declSnd (Nf : ℝ) : (declinationAndEoTFromNf Nf).2
    = 9.87 * Real.sin (2 * d2r ((360 / 365) * (Nf - 81)))
      - 7.53 * Real.cos (d2r ((360 / 365) * (Nf - 81)))
      - 1.5 * Real.sin (d2r ((360 / 365) * (Nf - 81))) := rfl

/-- On the scenario day, a local hour in `[12, 36)` lies in the same UTC day
(UTC hour `t - 12` in `[0, 24)`), so the day fraction is `81 + (t-12)/24`. -/
lemma getSolar_scen (t : ℝ) (h1 : 12 ≤ t) (h2 : t < 36) :
    getSolarAtLocalHour 12 81 t = declinationAndEoTFromNf ((81 : ℝ) + (t - 12) / 24) := by
  simp only [getSolarAtLocalHour]
  rw [if_neg (show ¬(t - 12 < 0) by linarith),
    if_neg (show ¬((24 : ℝ) ≤ t - 12) by linarith)]
  norm_num

/-- Uniform solar-state bounds on the scenario day: for every local hour in
`[12, 36)` the declination lies in `[0, 0.404]` degrees and the equation of
time in `[-7.556, -7.188]` minutes. -/
lemma scen_solar_bounds (t : ℝ) (ht1 : 12 ≤ t) (ht2 : t < 36) :
    0 ≤ (getSolarAtLocalHour 12 81 t).1 ∧ (getSolarAtLocalHour 12 81 t).1 ≤ 0.404 ∧
      -7.556 ≤ (getSolarAtLocalHour 12 81 t).2 ∧
      (getSolarAtLocalHour 12 81 t).2 ≤ -7.188 := by
  rw [getSolar_scen t ht1 ht2, declFst, declSnd]
  have harg : ((360 : ℝ) / 365) * ((((81 : ℝ) + (t - 12) / 24)) - 81)
      = (t - 12) * 15 / 365 := by ring
  rw [harg]
  set Br := d2r ((t - 12) * 15 / 365) with hBrdef
  have hBr_eq : Br = (t - 12) * π / 4380 := by
    rw [hBrdef]
    unfold d2r
    ring
  have hBr0 : 0 ≤ Br := by
    rw [hBr_eq]
    exact div_nonneg (mul_nonneg (by linarith) Real.pi_pos.le) (by norm_num)
  have hBr1 : Br ≤ 0.01722 := by
    rw [hBr_eq, div_le_iff (by norm_num : (0:ℝ) < 4380)]
    have h24 : t - 12 ≤ 24 := by linarith
    nlinarith [pi_ub, Real.pi_pos]
  have hs0 : 0 ≤ Real.sin Br :=
    Real.sin_nonneg_of_nonneg_of_le_pi hBr0 (by linarith [pi_lb])
  have hs1 : Real.sin Br ≤ Br := sin_le_self hBr0
  have hc1 : Real.cos Br ≤ 1 := Real.cos_le_one _
  have hb2 : Br ^ 2 ≤ 0.01722 ^ 2 := pow_le_pow_left hBr0 hBr1 2
  have hb4 : Br ^ 4 ≤ 0.01722 ^ 4 := pow_le_pow_left hBr0 hBr1 4
  have hc0 : 0.99985 ≤ Real.cos Br := by
    have hcs := cos_small_lower hBr0 (by linarith)
    nlinarith [hcs]
  have hs20 : 0 ≤ Real.sin (2 * Br) :=
    Real.sin_nonneg_of_nonneg_of_le_pi (by linarith) (by linarith [pi_lb])
  have hs21 : Real.sin (2 * Br) ≤ 2 * Br := by
    have := sin_le_self (x := 2 * Br) (by linarith)
    linarith
  refine ⟨by nlinarith [hs0], by nlinarith [hs1], by nlinarith, by nlinarith⟩

lemma hourAngle_lat0 (δ α : ℝ) :
    hourAngleDeg 0 δ α
      = r2d (Real.arccos (clamp (Real.sin (d2r α) / Real.cos (d2r δ)))) := by
  unfold hourAngleDeg rawCosH
  rw [d2r_zero, Real.sin_zero, Real.cos_zero]
  norm_num

lemma cos_d2r_delta_bounds {δ : ℝ} (h0 : 0 ≤ δ) (h1 : δ ≤ 0.404) :
    0.99997 ≤ Real.cos (d2r δ) ∧ Real.cos (d2r δ) ≤ 1 := by
  have hx_eq : d2r δ = δ * π / 180 := rfl
  have hx0 : 0 ≤ d2r δ := by
    rw [hx_eq]
    exact div_nonneg (mul_nonneg h0 Real.pi_pos.le) (by norm_num)
  have hx1 : d2r δ ≤ 0.0070512 := by
    rw [hx_eq, div_le_iff (by norm_num : (0:ℝ) < 180)]
    nlinarith [pi_ub, Real.pi_pos]
  have hb2 : (d2r δ) ^ 2 ≤ 0.0070512 ^ 2 := pow_le_pow_left hx0 hx1 2
  have hb4 : (d2r δ) ^ 4 ≤ 0.0070512 ^ 4 := pow_le_pow_left hx0 hx1 4
  have hcs := cos_small_lower hx0 (by linarith)
  exact ⟨by nlinarith, Real.cos_le_one _⟩

/-- At latitude 0 with an in-range cosine, `H/15` in local hours equals
`6 - 12·arcsin(y)/π` where `y = sin(α)/cos(δ)` (all angles converted). -/
lemma hourAngle_div15_eq (δ α : ℝ)
    (hmem1 : -1 ≤ Real.sin (d2r α) / Real.cos (d2r δ))
    (hmem2 : Real.sin (d2r α) / Real.cos (d2r δ) ≤ 1) :
    hourAngleDeg 0 δ α / 15
      = 6 - 12 * Real.arcsin (Real.sin (d2r α) / Real.cos (d2r δ)) / π := by
  rw [hourAngle_lat0, clamp_of_mem hmem1 hmem2, Real.arccos_eq_pi_div_two_sub_arcsin]
  unfold r2d
  field_simp
  ring

/-- Maghrib-type hour angle (target altitude -0.833°) at the equator:
`H/15 ∈ [6, 6.0558]` local hours for any declination in `[0, 0.404]`. -/
lemma maghrib_Hdiv15 {δ : ℝ} (h0 : 0 ≤ δ) (h1 : δ ≤ 0.404) :
    6 ≤ hourAngleDeg 0 δ (-0.833) / 15 ∧ hourAngleDeg 0 δ (-0.833) / 15 ≤ 6.0558 := by
  obtain ⟨hcl, hcu⟩ := cos_d2r_delta_bounds h0 h1
  have hπ := Real.pi_pos
  have hcpos : 0 < Real.cos (d2r δ) := by linarith
  have ha_eq : d2r (-0.833) = -(0.833 * π / 180) := by unfold d2r; ring
  have ha0 : (0.0145385 : ℝ) ≤ 0.833 * π / 180 := by
    rw [le_div_iff (by norm_num : (0:ℝ) < 180)]
    nlinarith [pi_lb]
  have ha1 : (0.833 : ℝ) * π / 180 ≤ 0.0145386 := by
    rw [div_le_iff (by norm_num : (0:ℝ) < 180)]
    nlinarith [pi_ub]
  have hsa1 : Real.sin (0.833 * π / 180) ≤ 0.833 * π / 180 := sin_le_self (by linarith)
  have hsa0 : 0.9999 * (0.833 * π / 180) ≤ Real.sin (0.833 * π / 180) :=
    sin_small_lower (by linarith) (by linarith)
  have hsy : Real.sin (d2r (-0.833)) = -Real.sin (0.833 * π / 180) := by
    rw [ha_eq, Real.sin_neg]
  have hy1 : Real.sin (d2r (-0.833)) / Real.cos (d2r δ) ≤ -0.0145370 := by
    rw [hsy, div_le_iff hcpos]
    nlinarith
  have hy0 : (-0.0145391 : ℝ) ≤ Real.sin (d2r (-0.833)) / Real.cos (d2r δ) := by
    rw [hsy, le_div_iff hcpos]
    nlinarith
  have hs_le : Real.arcsin (Real.sin (d2r (-0.833)) / Real.cos (d2r δ)) ≤ 0 :=
    Real.arcsin_nonpos.mpr (by linarith)
  have hs_ge : -(0.0146 : ℝ) ≤ Real.arcsin (Real.sin (d2r (-0.833)) / Real.cos (d2r δ)) := by
    apply le_arcsin_of (by linarith [pi_lb]) (by linarith [pi_lb])
    rw [Real.sin_neg]
    have := sin_small_lower (x := 0.0146) (by norm_num) (by norm_num)
    linarith
  rw [hourAngle_div15_eq δ (-0.833) (by linarith) (by linarith)]
  constructor
  · have hq : 12 * Real.arcsin (Real.sin (d2r (-0.833)) / Real.cos (d2r δ)) / π ≤ 0 := by
      rw [div_le_iff hπ]
      linarith [hs_le]
    linarith
  · have hq : -(0.0558 : ℝ) ≤ 12 * Real.arcsin (Real.sin (d2r (-0.833)) / Real.cos (d2r δ)) / π := by
      rw [le_div_iff hπ]
      linarith [hs_ge, pi_lb]
    linarith

/-- Shadow-factor-1 Asr hour angle (target altitude -45°) at the equator:
`H/15 ∈ [9, 10]` local hours for any declination in `[0, 0.404]`. -/
lemma asr1_Hdiv15 {δ : ℝ} (h0 : 0 ≤ δ) (h1 : δ ≤ 0.404) :
    9 ≤ hourAngleDeg 0 δ (-45) / 15 ∧ hourAngleDeg 0 δ (-45) / 15 ≤ 10 := by
  obtain ⟨hcl, hcu⟩ := cos_d2r_delta_bounds h0 h1
  have hπ := Real.pi_pos
  have hcpos : 0 < Real.cos (d2r δ) := by linarith
  have ha_eq : d2r (-45) = -(π / 4) := by unfold d2r; ring
  have hsy : Real.sin (d2r (-45)) = -(Real.sqrt 2 / 2) := by
    rw [ha_eq, Real.sin_neg, Real.sin_pi_div_four]
  obtain ⟨hs2l, hs2u⟩ := sqrt_two_bounds
  have hy1 : Real.sin (d2r (-45)) / Real.cos (d2r δ) ≤ -(Real.sqrt 2 / 2) := by
    rw [hsy, div_le_iff hcpos]
    nlinarith
  have hy0 : (-0.70714 : ℝ) ≤ Real.sin (d2r (-45)) / Real.cos (d2r δ) := by
    rw [hsy, le_div_iff hcpos]
    nlinarith
  obtain ⟨hs3l, hs3u⟩ := sqrt_three_bounds
  have hs_le : Real.arcsin (Real.sin (d2r (-45)) / Real.cos (d2r δ)) ≤ -(π / 4) := by
    apply arcsin_le_of (by linarith) (by linarith)
    rw [Real.sin_neg, Real.sin_pi_div_four]
    exact hy1
  have hs_ge : -(π / 3) ≤ Real.arcsin (Real.sin (d2r (-45)) / Real.cos (d2r δ)) := by
    apply le_arcsin_of (by linarith) (by linarith)
    rw [Real.sin_neg, Real.sin_pi_div_three]
    nlinarith
  rw [hourAngle_div15_eq δ (-45) (by linarith) (by nlinarith)]
  constructor
  · have hq : 12 * Real.arcsin (Real.sin (d2r (-45)) / Real.cos (d2r δ)) / π ≤ -3 := by
      rw [div_le_iff hπ]
      linarith [hs_le]
    linarith
  · have hq : (-4 : ℝ) ≤ 12 * Real.arcsin (Real.sin (d2r (-45)) / Real.cos (d2r δ)) / π := by
      rw [le_div_iff hπ]
      linarith [hs_ge]
    linarith

/-- The shadow-factor-2 Asr target altitude at declination 0. -/
lemma asrAlt2_eq : asrAltitudeDeg 0 0 2 = -r2d (Real.arctan (1 / 2)) := by
  unfold asrAltitudeDeg
  rw [d2r_zero, sub_self, abs_zero, Real.tan_zero]
  norm_num

/-- Shadow-factor-2 Asr hour angle at the equator: `H/15 ∈ [6, 8]` local
hours for any declination in `[0, 0.404]`. -/
lemma asr2_Hdiv15 {δ : ℝ} (h0 : 0 ≤ δ) (h1 : δ ≤ 0.404) :
    6 ≤ hourAngleDeg 0 δ (asrAltitudeDeg 0 0 2) / 15 ∧
      hourAngleDeg 0 δ (asrAltitudeDeg 0 0 2) / 15 ≤ 8 := by
  obtain ⟨hcl, hcu⟩ := cos_d2r_delta_bounds h0 h1
  have hπ := Real.pi_pos
  have hcpos : 0 < Real.cos (d2r δ) := by linarith
  have hd2r : d2r (asrAltitudeDeg 0 0 2) = -Real.arctan (1 / 2) := by
    rw [asrAlt2_eq]
    have : d2r (-r2d (Real.arctan (1 / 2))) = -(d2r (r2d (Real.arctan (1 / 2)))) := by
      unfold d2r
      ring
    rw [this, d2r_r2d]
  have hsq : (1 : ℝ) + (1 / 2) ^ 2 = 5 / 4 := by norm_num
  have hsqrt_l : (1.118 : ℝ) ≤ Real.sqrt (5 / 4) := by
    rw [Real.le_sqrt (by norm_num) (by norm_num)]
    norm_num
  have hsqrt_pos : (0 : ℝ) < Real.sqrt (5 / 4) := by linarith
  have hsv : Real.sin (d2r (asrAltitudeDeg 0 0 2))
      = -(1 / 2 / Real.sqrt (5 / 4)) := by
    rw [hd2r, Real.sin_neg, Real.sin_arctan, hsq]
  have hsv_pos : 0 < 1 / 2 / Real.sqrt (5 / 4) := by positivity
  have hsv_ub : 1 / 2 / Real.sqrt (5 / 4) ≤ 0.44723 := by
    rw [div_le_iff hsqrt_pos]
    nlinarith
  have hy_le : Real.sin (d2r (asrAltitudeDeg 0 0 2)) / Real.cos (d2r δ) ≤ 0 := by
    rw [hsv, neg_div]
    have : 0 ≤ 1 / 2 / Real.sqrt (5 / 4) / Real.cos (d2r δ) :=
      div_nonneg hsv_pos.le hcpos.le
    linarith
  have hy_ge : (-(1 / 2) : ℝ) ≤ Real.sin (d2r (asrAltitudeDeg 0 0 2)) / Real.cos (d2r δ) := by
    rw [hsv, neg_div, neg_le_neg_iff, div_le_iff hcpos]
    nlinarith
  have hs_le : Real.arcsin (Real.sin (d2r (asrAltitudeDeg 0 0 2)) / Real.cos (d2r δ)) ≤ 0 :=
    Real.arcsin_nonpos.mpr hy_le
  have hs_ge : -(π / 6)
      ≤ Real.arcsin (Real.sin (d2r (asrAltitudeDeg 0 0 2)) / Real.cos (d2r δ)) := by
    apply le_arcsin_of (by linarith) (by linarith)
    rw [Real.sin_neg, Real.sin_pi_div_six]
    exact hy_ge
  rw [hourAngle_div15_eq δ (asrAltitudeDeg 0 0 2) (by linarith) (by linarith)]
  constructor
  · have hq : 12 * Real.arcsin (Real.sin (d2r (asrAltitudeDeg 0 0 2))
        / Real.cos (d2r δ)) / π ≤ 0 := by
      rw [div_le_iff hπ]
      linarith [hs_le]
    linarith
  · have hq : (-2 : ℝ) ≤ 12 * Real.arcsin (Real.sin (d2r (asrAltitudeDeg 0 0 2))
        / Real.cos (d2r δ)) / π := by
      rw [le_div_iff hπ]
      linarith [hs_ge]
    linarith

/-- One refinement step of the solver in the scenario: if the incoming
estimate lies in `[12, 36)` then the refreshed state satisfies the uniform
declination/noon bounds and the new estimate is `noon + H/15`, bounded via
the supplied hour-angle bounds. -/
lemma scen_step (α hHlo hHhi : ℝ)
    (hH : ∀ δ : ℝ, 0 ≤ δ → δ ≤ 0.404 →
      hHlo ≤ hourAngleDeg 0 δ α / 15 ∧ hourAngleDeg 0 δ α / 15 ≤ hHhi)
    (p : SolarSt × ℝ) (ht1 : 12 ≤ p.2) (ht2 : p.2 < 36) :
    0 ≤ (solveStep 0 0 12 81 α false p).1.delta ∧
      (solveStep 0 0 12 81 α false p).1.delta ≤ 0.404 ∧
      24.1198 ≤ (solveStep 0 0 12 81 α false p).1.noon ∧
      (solveStep 0 0 12 81 α false p).1.noon ≤ 24.126 ∧
      24.1198 + hHlo ≤ (solveStep 0 0 12 81 α false p).2 ∧
      (solveStep 0 0 12 81 α false p).2 ≤ 24.126 + hHhi := by
  obtain ⟨hd0, hd1, he0, he1⟩ := scen_solar_bounds p.2 ht1 ht2
  obtain ⟨hq1, hq2⟩ := hH _ hd0 hd1
  have hstep : solveStep 0 0 12 81 α false p
      = (⟨(getSolarAtLocalHour 12 81 p.2).1, (getSolarAtLocalHour 12 81 p.2).2,
          noonOf 0 12 (getSolarAtLocalHour 12 81 p.2).2⟩,
        noonOf 0 12 (getSolarAtLocalHour 12 81 p.2).2
          + hourAngleDeg 0 (getSolarAtLocalHour 12 81 p.2).1 α / 15) := rfl
  rw [hstep]
  dsimp only
  have hnoon_eq : noonOf 0 12 (getSolarAtLocalHour 12 81 p.2).2
      = 24 - (getSolarAtLocalHour 12 81 p.2).2 / 60 := by
    unfold noonOf
    ring
  rw [hnoon_eq]
  refine ⟨hd0, hd1, by linarith, by linarith, by linarith, by linarith⟩

/-- The full scenario solver run for an after-noon event: starting from a
state with declination in `[0, 0.404]` and noon in `[24.1198, 24.126]`, the
solved local hour lies in `[24.1198 + Hlo, 24.126 + Hhi]` and the final
state again satisfies the uniform bounds. -/
lemma scen_solve (α hHlo hHhi : ℝ)
    (hH : ∀ δ : ℝ, 0 ≤ δ → δ ≤ 0.404 →
      hHlo ≤ hourAngleDeg 0 δ α / 15 ∧ hourAngleDeg 0 δ α / 15 ≤ hHhi)
    (hlo : 0 ≤ hHlo) (hhi : hHhi ≤ 11)
    (st : SolarSt) (hd0 : 0 ≤ st.delta) (hd1 : st.delta ≤ 0.404)
    (hn0 : 24.1198 ≤ st.noon) (hn1 : st.noon ≤ 24.126) :
    24.1198 + hHlo ≤ (solvePrayer 0 0 12 81 α false st).2 ∧
      (solvePrayer 0 0 12 81 α false st).2 ≤ 24.126 + hHhi ∧
      0 ≤ (solvePrayer 0 0 12 81 α false st).1.delta ∧
      (solvePrayer 0 0 12 81 α false st).1.delta ≤ 0.404 ∧
      24.1198 ≤ (solvePrayer 0 0 12 81 α false st).1.noon ∧
      (solvePrayer 0 0 12 81 α false st).1.noon ≤ 24.126 := by
  obtain ⟨h01, h02⟩ := hH st.delta hd0 hd1
  have hsp : solvePrayer 0 0 12 81 α false st
      = solveStep 0 0 12 81 α false (solveStep 0 0 12 81 α false
          (solveStep 0 0 12 81 α false
            (st, st.noon + hourAngleDeg 0 st.delta α / 15))) := rfl
  have ht0a : (12 : ℝ) ≤ (st, st.noon + hourAngleDeg 0 st.delta α / 15).2 := by
    show (12 : ℝ) ≤ st.noon + hourAngleDeg 0 st.delta α / 15
    linarith
  have ht0b : (st, st.noon + hourAngleDeg 0 st.delta α / 15).2 < 36 := by
    show st.noon + hourAngleDeg 0 st.delta α / 15 < 36
    linarith
  have h1 := scen_step α hHlo hHhi hH
    (st, st.noon + hourAngleDeg 0 st.delta α / 15) ht0a ht0b
  have h2 := scen_step α hHlo hHhi hH
    (solveStep 0 0 12 81 α false (st, st.noon + hourAngleDeg 0 st.delta α / 15))
    (by linarith [h1.2.2.2.2.1]) (by linarith [h1.2.2.2.2.2])
  have h3 := scen_step α hHlo hHhi hH
    (solveStep 0 0 12 81 α false (solveStep 0 0 12 81 α false
      (st, st.noon + hourAngleDeg 0 st.delta α / 15)))
    (by linarith [h2.2.2.2.2.1]) (by linarith [h2.2.2.2.2.2])
  rw [hsp]
  exact ⟨h3.2.2.2.2.1, h3.2.2.2.2.2, h3.1, h3.2.1, h3.2.2.1, h3.2.2.2.1⟩

lemma solar12 : getSolarAtLocalHour 12 81 12 = ((0 : ℝ), (-7.53 : ℝ)) := by
  rw [getSolar_scen 12 (le_refl 12) (by norm_num)]
  have harg : ((81 : ℝ) + (12 - 12) / 24) = 81 := by norm_num
  rw [harg]
  have h0 : ((360 : ℝ) / 365) * ((81 : ℝ) - 81) = 0 := by norm_num
  unfold declinationAndEoTFromNf
  rw [h0]
  norm_num [d2r_zero, Real.sin_zero, Real.cos_zero]

lemma dhuhrSt_delta_eq : (dhuhrSt 0 12 81).delta = 0 := by
  show (getSolarAtLocalHour 12 81 12).1 = 0
  rw [solar12]

lemma dhuhrSt_noon_eq : (dhuhrSt 0 12 81).noon
    = noonOf 0 12 (getSolarAtLocalHour 12 81
        (noonOf 0 12 (getSolarAtLocalHour 12 81
          (noonOf 0 12 (getSolarAtLocalHour 12 81 12).2)).2)).2 := rfl

/-- The refined solar noon of the scenario lies in `[24.1198, 24.126]`. -/
lemma dhuhrSt_noon_bounds :
    24.1198 ≤ (dhuhrSt 0 12 81).noon ∧ (dhuhrSt 0 12 81).noon ≤ 24.126 := by
  have hn0 : noonOf 0 12 (getSolarAtLocalHour 12 81 12).2 = 24.1255 := by
    rw [solar12]
    unfold noonOf
    norm_num
  obtain ⟨_, _, he1l, he1u⟩ := scen_solar_bounds
    (noonOf 0 12 (getSolarAtLocalHour 12 81 12).2)
    (by rw [hn0]; norm_num) (by rw [hn0]; norm_num)
  have hn1eq : noonOf 0 12 (getSolarAtLocalHour 12 81
      (noonOf 0 12 (getSolarAtLocalHour 12 81 12).2)).2
      = 24 - (getSolarAtLocalHour 12 81
        (noonOf 0 12 (getSolarAtLocalHour 12 81 12).2)).2 / 60 := by
    unfold noonOf
    ring
  obtain ⟨_, _, he2l, he2u⟩ := scen_solar_bounds
    (noonOf 0 12 (getSolarAtLocalHour 12 81
      (noonOf 0 12 (getSolarAtLocalHour 12 81 12).2)).2)
    (by rw [hn1eq]; linarith) (by rw [hn1eq]; linarith)
  rw [dhuhrSt_noon_eq]
  have hn2eq : noonOf 0 12 (getSolarAtLocalHour 12 81
      (noonOf 0 12 (getSolarAtLocalHour 12 81
        (noonOf 0 12 (getSolarAtLocalHour 12 81 12).2)).2)).2
      = 24 - (getSolarAtLocalHour 12 81
        (noonOf 0 12 (getSolarAtLocalHour 12 81
          (noonOf 0 12 (getSolarAtLocalHour 12 81 12).2)).2)).2 / 60 := by
    unfold noonOf
    ring
  rw [hn2eq]
  constructor <;> linarith

/-- The shadow-factor-1 Asr target altitude at declination 0 is exactly -45°. -/
lemma asrAlt1_eq : asrAltitudeDeg 0 0 1 = -45 := by
  unfold asrAltitudeDeg
  rw [d2r_zero, sub_self, abs_zero, Real.tan_zero]
  norm_num [Real.arctan_one]
  unfold r2d
  field_simp
  ring

/-! ### C4, C8, C5: concrete evaluation of the scenario
(latitude 0, longitude 0, UTC+12, day-of-year 81 = 22 March 2001, MWL). -/

lemma scen_asr1_bounds :
    33.1198 ≤ (solvePrayer 0 0 12 81 (-45) false (dhuhrSt 0 12 81)).2 ∧
      (solvePrayer 0 0 12 81 (-45) false (dhuhrSt 0 12 81)).2 ≤ 34.126 ∧
      0 ≤ (solvePrayer 0 0 12 81 (-45) false (dhuhrSt 0 12 81)).1.delta ∧
      (solvePrayer 0 0 12 81 (-45) false (dhuhrSt 0 12 81)).1.delta ≤ 0.404 ∧
      24.1198 ≤ (solvePrayer 0 0 12 81 (-45) false (dhuhrSt 0 12 81)).1.noon ∧
      (solvePrayer 0 0 12 81 (-45) false (dhuhrSt 0 12 81)).1.noon ≤ 24.126 := by
  obtain ⟨hnl, hnu⟩ := dhuhrSt_noon_bounds
  have hd := dhuhrSt_delta_eq
  have h := scen_solve (-45) 9 10 (fun δ h0 h1 => asr1_Hdiv15 h0 h1)
    (by norm_num) (by norm_num) (dhuhrSt 0 12 81) hd.ge
    (by rw [hd]; norm_num) hnl hnu
  refine ⟨by linarith [h.1], by linarith [h.2.1], h.2.2.1, h.2.2.2.1,
    h.2.2.2.2.1, h.2.2.2.2.2⟩

lemma scen_maghrib_bounds :
    30.1198 ≤ (solvePrayer 0 0 12 81 (-0.833) false
        ((solvePrayer 0 0 12 81 (-45) false (dhuhrSt 0 12 81)).1)).2 ∧
      (solvePrayer 0 0 12 81 (-0.833) false
        ((solvePrayer 0 0 12 81 (-45) false (dhuhrSt 0 12 81)).1)).2 ≤ 30.1818 := by
  obtain ⟨-, -, ha1, ha2, ha3, ha4⟩ := scen_asr1_bounds
  have h := scen_solve (-0.833) 6 6.0558 (fun δ h0 h1 => maghrib_Hdiv15 h0 h1)
    (by norm_num) (by norm_num)
    ((solvePrayer 0 0 12 81 (-45) false (dhuhrSt 0 12 81)).1) ha1 ha2 ha3 ha4
  exact ⟨by linarith [h.1], by linarith [h.2.1]⟩

lemma scen_asr2_bounds :
    (solvePrayer 0 0 12 81 (asrAltitudeDeg 0 0 2) false (dhuhrSt 0 12 81)).2 ≤ 32.126 := by
  obtain ⟨hnl, hnu⟩ := dhuhrSt_noon_bounds
  have hd := dhuhrSt_delta_eq
  have h := scen_solve (asrAltitudeDeg 0 0 2) 6 8 (fun δ h0 h1 => asr2_Hdiv15 h0 h1)
    (by norm_num) (by norm_num) (dhuhrSt 0 12 81) hd.ge
    (by rw [hd]; norm_num) hnl hnu
  linarith [h.2.1]

/-- C4: the claimed ordering fails on the code.  At latitude 0, longitude 0,
UTC offset +12, day-of-year 81 (22 March 2001, not a solstice), method MWL,
shadow factor 1, the solved Asr is about three hours after Maghrib — because
`asrAltitudeDeg` negates the classical Asr altitude (-45° instead of +45° at
equinox), pushing Asr below the horizon after sunset — so
`fajr < sunrise < dhuhr < asr < maghrib < isha` is violated
(`_mins`: maghrib ≤ 1811 < 1987 ≤ asr). -/
theorem C4_ordering_violated :
    (calculatePrayerTimesAdvanced 0 0 12 81 CalcMethod.MWL 1 none none).mins.maghrib
      < (calculatePrayerTimesAdvanced 0 0 12 81 CalcMethod.MWL 1 none none).mins.asr ∧
    ¬((calculatePrayerTimesAdvanced 0 0 12 81 CalcMethod.MWL 1 none none).mins.fajr
        < (calculatePrayerTimesAdvanced 0 0 12 81 CalcMethod.MWL 1 none none).mins.sunrise ∧
      (calculatePrayerTimesAdvanced 0 0 12 81 CalcMethod.MWL 1 none none).mins.sunrise
        < (calculatePrayerTimesAdvanced 0 0 12 81 CalcMethod.MWL 1 none none).mins.dhuhr ∧
      (calculatePrayerTimesAdvanced 0 0 12 81 CalcMethod.MWL 1 none none).mins.dhuhr
        < (calculatePrayerTimesAdvanced 0 0 12 81 CalcMethod.MWL 1 none none).mins.asr ∧
      (calculatePrayerTimesAdvanced 0 0 12 81 CalcMethod.MWL 1 none none).mins.asr
        < (calculatePrayerTimesAdvanced 0 0 12 81 CalcMethod.MWL 1 none none).mins.maghrib ∧
      (calculatePrayerTimesAdvanced 0 0 12 81 CalcMethod.MWL 1 none none).mins.maghrib
        < (calculatePrayerTimesAdvanced 0 0 12 81 CalcMethod.MWL 1 none none).mins.isha) := by
  have hd := dhuhrSt_delta_eq
  have hAlt1 : asrAltitudeDeg 0 (dhuhrSt 0 12 81).delta 1 = -45 := by
    rw [hd]
    exact asrAlt1_eq
  have hasr : (calculatePrayerTimesAdvanced 0 0 12 81 CalcMethod.MWL 1 none none).mins.asr
      = hoursToMins ((solvePrayer 0 0 12 81
          (asrAltitudeDeg 0 (dhuhrSt 0 12 81).delta 1) false (dhuhrSt 0 12 81)).2) := rfl
  rw [hAlt1] at hasr
  have hmag : (calculatePrayerTimesAdvanced 0 0 12 81 CalcMethod.MWL 1 none none).mins.maghrib
      = hoursToMins ((solvePrayer 0 0 12 81 (-0.833) false
          ((solvePrayer 0 0 12 81
            (asrAltitudeDeg 0 (dhuhrSt 0 12 81).delta 1) false (dhuhrSt 0 12 81)).1)).2) := rfl
  rw [hAlt1] at hmag
  have hasrge : (1987 : ℤ) ≤ hoursToMins
      ((solvePrayer 0 0 12 81 (-45) false (dhuhrSt 0 12 81)).2) := by
    unfold hoursToMins
    apply round_ge
    push_cast
    linarith [scen_asr1_bounds.1]
  have hmagle : hoursToMins ((solvePrayer 0 0 12 81 (-0.833) false
      ((solvePrayer 0 0 12 81 (-45) false (dhuhrSt 0 12 81)).1)).2) ≤ 1811 := by
    unfold hoursToMins
    apply round_le_of
    push_cast
    linarith [scen_maghrib_bounds.2]
  rw [hasr, hmag]
  refine ⟨by omega, ?_⟩
  rintro ⟨-, -, -, hx, -⟩
  omega

/-- C8: shadow monotonicity fails on the code.  With the other inputs fixed
(latitude 0, longitude 0, UTC+12, day 81, MWL), the Asr computed with shadow
factor 2 is strictly EARLIER than with shadow factor 1 (`_mins` ≤ 1928
versus ≥ 1987): the negated Asr altitude reverses the intended direction. -/
theorem C8_shadow2_earlier :
    (calculatePrayerTimesAdvanced 0 0 12 81 CalcMethod.MWL 2 none none).mins.asr
      < (calculatePrayerTimesAdvanced 0 0 12 81 CalcMethod.MWL 1 none none).mins.asr := by
  have hd := dhuhrSt_delta_eq
  have hAlt1 : asrAltitudeDeg 0 (dhuhrSt 0 12 81).delta 1 = -45 := by
    rw [hd]
    exact asrAlt1_eq
  have hAlt2 : asrAltitudeDeg 0 (dhuhrSt 0 12 81).delta 2 = asrAltitudeDeg 0 0 2 := by
    rw [hd]
  have hasr1 : (calculatePrayerTimesAdvanced 0 0 12 81 CalcMethod.MWL 1 none none).mins.asr
      = hoursToMins ((solvePrayer 0 0 12 81
          (asrAltitudeDeg 0 (dhuhrSt 0 12 81).delta 1) false (dhuhrSt 0 12 81)).2) := rfl
  rw [hAlt1] at hasr1
  have hasr2 : (calculatePrayerTimesAdvanced 0 0 12 81 CalcMethod.MWL 2 none none).mins.asr
      = hoursToMins ((solvePrayer 0 0 12 81
          (asrAltitudeDeg 0 (dhuhrSt 0 12 81).delta 2) false (dhuhrSt 0 12 81)).2) := rfl
  rw [hAlt2] at hasr2
  have hasrge : (1987 : ℤ) ≤ hoursToMins
      ((solvePrayer 0 0 12 81 (-45) false (dhuhrSt 0 12 81)).2) := by
    unfold hoursToMins
    apply round_ge
    push_cast
    linarith [scen_asr1_bounds.1]
  have hasr2le : hoursToMins ((solvePrayer 0 0 12 81
      (asrAltitudeDeg 0 0 2) false (dhuhrSt 0 12 81)).2) ≤ 1928 := by
    unfold hoursToMins
    apply round_le_of
    push_cast
    linarith [scen_asr2_bounds]
  rw [hasr1, hasr2]
  omega

/-- C5 (counterexample): the `_mins` entry of an event need not lie in
`[0, 1440)`: at latitude 0, longitude 0, UTC offset +12, day 81, the Dhuhr
`_mins` value is at least 1440 (solar noon falls past the civil day at
roughly 24.12 local hours, and `hoursToMins` does not wrap). -/
theorem C5_cex :
    (1440 : ℤ) ≤ (calculatePrayerTimesAdvanced 0 0 12 81
      CalcMethod.MWL 1 none none).mins.dhuhr := by
  have hdh : (calculatePrayerTimesAdvanced 0 0 12 81 CalcMethod.MWL 1 none none).mins.dhuhr
      = hoursToMins ((dhuhrSt 0 12 81).noon) := rfl
  rw [hdh]
  unfold hoursToMins
  apply round_ge
  push_cast
  linarith [dhuhrSt_noon_bounds.1]

end

end Azan
